import Mathlib

/-!
Shallow embedding of `wayland-client/src/rust_imp/mod.rs` (the client-side
object-lifecycle and event-dispatch core): the `ProxyMap` registry facade,
the `ThreadGuard` thread-confinement primitive, the `Dispatched` outcome
type, the generic `ImplDispatcher::dispatch` algorithm and the fallback
`default_dispatcher`.

External collaborators (the `ObjectMap` keyed store, the per-interface
decode contract, the transport handle) appear as explicit parameters or as
definitions modelled from the specification, each marked as such in its
doc comment.  Rust panics (slice indexing out of bounds) are modelled by
`Option`: a `none` result of `dispatch` is an aborted (panicked) call.
-/

/-- One entry of the `events` table of an object: event descriptor with its
name and the minimum protocol version that introduced it
(`MessageDesc` of `wayland_commons`, restricted to the fields this core reads). -/
structure EventDesc where
  name : String
  sinceV : Nat
  deriving DecidableEq

/-- The per-object metadata this core reads and writes
(`ObjectMeta` of `rust_imp/proxy.rs`): the shared atomic `alive` flag and the
two independent destruction flags. -/
structure ObjectMeta where
  alive : Bool
  client_destroyed : Bool
  server_destroyed : Bool
  deriving DecidableEq

/-- A registry record for one protocol object (`wayland_commons::map::Object`,
restricted to the fields this core reads): interface name, negotiated
version, events table, metadata. -/
structure Object where
  interface : String
  version : Nat
  events : List EventDesc
  meta : ObjectMeta
  deriving DecidableEq

/-- The external keyed store mapping integer ids to object entries.
It is an external collaborator of this core (spec §6); modelled as a partial
function from ids to entries, with the three operations the core consumes:
`find`, `with`, `remove`. -/
abbrev ObjectMap := Nat → Option Object

/-- `ObjectMap::find(id)`: look the entry up, `none` when absent. -/
def ObjectMap.find (m : ObjectMap) (id : Nat) : Option Object := m id

/-- `ObjectMap::with(id, f)`: apply a mutating closure to the entry if
present, returning the closure's result and the updated map; on an absent
id the map is unchanged and the result is `none`. -/
def ObjectMap.withId (m : ObjectMap) (id : Nat) (f : Object → Object × α) :
    Option α × ObjectMap :=
  match m id with
  | none => (none, m)
  | some obj =>
    let p := f obj
    (some p.2, fun i => if i = id then some p.1 else m i)

/-- `ObjectMap::remove(id)`: drop the entry. -/
def ObjectMap.remove (m : ObjectMap) (id : Nat) : ObjectMap :=
  fun i => if i = id then none else m i

/-- The effect, on the registry's view, of
`proxy.object.meta.alive.store(false, Ordering::Release)`: the `alive` flag
is an `Arc<AtomicBool>` shared between the proxy's object snapshot and the
map entry, so storing through the proxy updates the entry (when it is still
present). -/
def ObjectMap.storeAlive (m : ObjectMap) (id : Nat) (b : Bool) : ObjectMap :=
  fun i =>
    if i = id then (m i).map (fun obj => { obj with meta := { obj.meta with alive := b } })
    else m i

/-- A wire message (`wayland_commons::wire::Message`): sender object id,
opcode, argument list (argument payloads abstracted to naturals; dispatch
never inspects them beyond printing). -/
structure Message where
  sender_id : Nat
  opcode : Nat
  args : List Nat
  deriving DecidableEq

/-- The typed handle to an object entry (`ProxyInner`, restricted to the
fields `dispatch` reads: the id and the object snapshot).  `Main<I>` is
structurally the same handle, so callback invocations are recorded with a
`ProxyInner`. -/
structure ProxyInner where
  id : Nat
  object : Object
  deriving DecidableEq

/-- Modelled from the spec: `ProxyInner::version()` (defined in
`rust_imp/proxy.rs`, not part of the included core) returns the negotiated
protocol version of the object entry. -/
def ProxyInner.version (p : ProxyInner) : Nat := p.object.version

/-- The proxy value as the callback observes it after
`alive.store(false)`: the shared atomic in its object snapshot now reads
`false`. -/
def ProxyInner.withAliveFalse (p : ProxyInner) : ProxyInner :=
  { p with object := { p.object with meta := { p.object.meta with alive := false } } }

/-- The three dispatch outcomes (`enum Dispatched`). -/
inductive Dispatched where
  | Yes : Dispatched
  | NoDispatch : Message → ProxyInner → Dispatched
  | BadMsg : Dispatched
  deriving DecidableEq

/-- The decode contract of a protocol interface `I` consumed by
`ImplDispatcher::dispatch` (spec §6): `I::Event::from_raw` (decode, `none`
for `Err(())`), `Event::since` (minimum required version) and
`Event::is_destructor`. -/
structure EventSig (Event : Type) where
  from_raw : Message → ObjectMap → Option Event
  sinceV : Event → Nat
  is_destructor : Event → Bool

/-- The `WAYLAND_DEBUG` trace line
`eprintln!(" <- {}@{}: {} {:?}", interface, id, event_name, args)`. -/
def traceLine (proxy : ProxyInner) (msg : Message) (name : String) : String :=
  " <- " ++ proxy.object.interface ++ "@" ++ toString proxy.id ++ ": " ++ name
    ++ " " ++ toString msg.args

/-- The version-violation diagnostic
`eprintln!("Received an event {} requiring version >= {} while proxy {}@{} is version {}.", ...)`. -/
def versionErrLine (name : String) (sv : Nat) (proxy : ProxyInner) : String :=
  "Received an event " ++ name ++ " requiring version >= " ++ toString sv
    ++ " while proxy " ++ proxy.object.interface ++ "@" ++ toString proxy.id
    ++ " is version " ++ toString proxy.version ++ "."

/-- Everything a call to `dispatch` produces besides its panic/no-panic
status: the outcome value, the registry after the call, the list of user
callback invocations `(event, owning handle)` in order, and the lines
printed to the diagnostic stream in order. -/
structure DispatchResult (Event : Type) where
  outcome : Dispatched
  map : ObjectMap
  calls : List (Event × ProxyInner)
  debugLines : List String

/-- The destructor bookkeeping of `ImplDispatcher::dispatch`
(`mod.rs` lines 146–158): under the registry lock, set
`client_destroyed = true` on the entry while reading `server_destroyed`
(absent entry: `unwrap_or(false)`), then remove the entry when the other
flag was already set. -/
def destructorCleanup (m : ObjectMap) (id : Nat) : ObjectMap :=
  let p := m.withId id (fun obj =>
    ({ obj with meta := { obj.meta with client_destroyed := true } },
      obj.meta.server_destroyed))
  let server_destroyed := p.1.getD false
  if server_destroyed then p.2.remove id else p.2

/-- `ImplDispatcher::dispatch` (`mod.rs` lines 121–164).  `debug` is the
presence of the `WAYLAND_DEBUG` environment variable; `sig` is the decode
contract of the interface `I`; the user callback is not a parameter: its
invocations are recorded in `calls`.  `none` models a Rust panic (the only
panic source in this code is the slice indexing `events[opcode]` inside the
two `eprintln!` calls). -/
def ImplDispatcher.dispatch {Event : Type} (sig : EventSig Event) (debug : Bool)
    (msg : Message) (proxy : ProxyInner) (map : ObjectMap) :
    Option (DispatchResult Event) :=
  let opcode := msg.opcode
  let dbgStep : Option (List String) :=
    if debug then
      (proxy.object.events[opcode]?).map (fun ev => [traceLine proxy msg ev.name])
    else some []
  match dbgStep with
  | none => none
  | some dbg =>
    match sig.from_raw msg map with
    | none => some ⟨Dispatched.BadMsg, map, [], dbg⟩
    | some message =>
      if sig.sinceV message > proxy.version then
        match proxy.object.events[opcode]? with
        | none => none
        | some ev =>
          some ⟨Dispatched.BadMsg, map, [],
            dbg ++ [versionErrLine ev.name (sig.sinceV message) proxy]⟩
      else if sig.is_destructor message then
        let map1 := (map.storeAlive proxy.id false)
        let map2 := destructorCleanup map1 proxy.id
        some ⟨Dispatched.Yes, map2, [(message, proxy.withAliveFalse)], dbg⟩
      else
        some ⟨Dispatched.Yes, map, [(message, proxy)], dbg⟩

/-- The dispatch method of the dispatcher returned by `default_dispatcher`
(`mod.rs` lines 180–189): always `NoDispatch(msg, proxy)`, with no decode,
no callback, no registry access, no diagnostic output. -/
def default_dispatcher {Event : Type} (msg : Message) (proxy : ProxyInner)
    (m : ObjectMap) : DispatchResult Event :=
  ⟨Dispatched.NoDispatch msg proxy, m, [], []⟩

/-- `ThreadGuard<T>` (`mod.rs` lines 62–85): a payload tagged with the
identity of the thread that constructed it.  Thread identities are
modelled as naturals. -/
structure ThreadGuard (T : Type) where
  val : T
  thread : Nat

/-- `ThreadGuard::new`, called from thread `current`. -/
def ThreadGuard.new (current : Nat) (v : T) : ThreadGuard T :=
  { val := v, thread := current }

/-- `ThreadGuard::get`, called from thread `current`: the reference to the
payload when on the owning thread, `none` for the fatal assertion failure
otherwise. -/
def ThreadGuard.get (g : ThreadGuard T) (current : Nat) : Option T :=
  if g.thread = current then some g.val else none

/-- Modelled from the spec: `ProxyInner::from_id` (defined in
`rust_imp/proxy.rs`, not part of the included core) resolves an id to a
handle when the entry exists and returns empty otherwise (spec §4.1). -/
def ProxyInner.from_id (id : Nat) (m : ObjectMap) : Option ProxyInner :=
  (m.find id).map (fun obj => { id := id, object := obj })

/-- The registry facade (`ProxyMap`, `mod.rs` lines 26–58); the transport
handle is opaque to every operation modelled here and is omitted. -/
structure ProxyMap where
  map : ObjectMap

/-- `ProxyMap::get` (`mod.rs` lines 40–45): resolve an id through
`ProxyInner::from_id` and wrap it (the `debug_assert!` interface check is a
no-op outside debug builds and cannot fire on an absent id).  The facade is
returned alongside the result to make the absence of mutation explicit. -/
def ProxyMap.get (pm : ProxyMap) (id : Nat) : Option ProxyInner × ProxyMap :=
  (ProxyInner.from_id id pm.map, pm)

/-- `ProxyMap::get_new` (`mod.rs` lines 48–57): same resolution returning
the owning-handle variant (structurally identical here). -/
def ProxyMap.get_new (pm : ProxyMap) (id : Nat) : Option ProxyInner × ProxyMap :=
  (ProxyInner.from_id id pm.map, pm)

/-- Modelled from the spec: the server-initiated destroy signal for an
entry (processed by `rust_imp/connection.rs`, not part of the included
core): clear `alive`, set `server_destroyed = true` while reading
`client_destroyed`, and remove the entry when the other flag was already
set (spec §3 invariant and §8.1). -/
def serverDestroy (m : ObjectMap) (id : Nat) : ObjectMap :=
  let m1 := m.storeAlive id false
  let p := m1.withId id (fun obj =>
    ({ obj with meta := { obj.meta with server_destroyed := true } },
      obj.meta.client_destroyed))
  if p.1.getD false then p.2.remove id else p.2

/-- The client-side destroy signal as `dispatch` performs it on the
registry (`mod.rs` lines 145–157): clear `alive`, then the destructor
bookkeeping. -/
def clientDestroy (m : ObjectMap) (id : Nat) : ObjectMap :=
  destructorCleanup (m.storeAlive id false) id

/-! Concrete fixtures used by witnesses and counterexamples (spec §8.6:
object id 5, interface wl_surface, negotiated version 4). -/

/-- A live entry's metadata: alive, neither side destroyed. -/
def metaLive : ObjectMeta := ⟨true, false, false⟩

/-- The §8.6 object: wl_surface at negotiated version 4, two events. -/
def objFix : Object := ⟨"wl_surface", 4, [⟨"frame", 3⟩, ⟨"enter", 1⟩], metaLive⟩

/-- Handle to the §8.6 object, id 5. -/
def proxyFix : ProxyInner := ⟨5, objFix⟩

/-- Registry holding only the §8.6 object at id 5. -/
def mapFix : ObjectMap := fun i => if i = 5 then some objFix else none

/-- A message for object 5, opcode 0, one argument. -/
def msgFix : Message := ⟨5, 0, [7]⟩

/-- Decode contract whose events are naturals equal to their own minimum
version; decodes every message to event 3 (since 3), never a destructor. -/
def sigOk : EventSig Nat := ⟨fun _ _ => some 3, fun n => n, fun _ => false⟩

/-- Decode contract decoding every message to event 5 (since 5), never a
destructor. -/
def sigBadVer : EventSig Nat := ⟨fun _ _ => some 5, fun n => n, fun _ => false⟩

/-- Decode contract decoding every message to destructor event 1 (since 1). -/
def sigDtor : EventSig Nat := ⟨fun _ _ => some 1, fun _ => 1, fun _ => true⟩

/-- An object with an empty events table, negotiated version 1. -/
def objNoEvents : Object := ⟨"wl_surface", 1, [], metaLive⟩

/-- Handle to the empty-events-table object, id 9. -/
def proxyNoEvents : ProxyInner := ⟨9, objNoEvents⟩

/-! Claim theorems. -/

/-- C6: the dispatcher returned by `default_dispatcher` yields
`NoDispatch` carrying back the exact same message and handle, with no
callback invocation, no decode attempt, and no read or write of the
registry. -/
theorem default_dispatcher_transparent {E : Type} (msg : Message)
    (proxy : ProxyInner) (m : ObjectMap) :
    @default_dispatcher E msg proxy m
      = ⟨Dispatched.NoDispatch msg proxy, m, [], []⟩ := rfl

/-- C7: reading a `ThreadGuard` from the thread that constructed it returns
the original payload; reading it from any other thread fails the assertion
(modelled as `none`). -/
theorem thread_guard_confinement {T : Type} (v : T) (tA tB : Nat)
    (h : tB ≠ tA) :
    (ThreadGuard.new tA v).get tA = some v ∧
    (ThreadGuard.new tA v).get tB = none := by
  refine ⟨?_, ?_⟩
  · simp [ThreadGuard.new, ThreadGuard.get]
  · simp [ThreadGuard.new, ThreadGuard.get]
    exact fun hh => absurd hh.symm h

/-- Witness for C7 at payload 42, owning thread 0, foreign thread 1. -/
theorem thread_guard_confinement_witness :
    (1 : Nat) ≠ 0 ∧
    ((ThreadGuard.new 0 (42 : Nat)).get 0 = some 42 ∧
      (ThreadGuard.new 0 (42 : Nat)).get 1 = none) :=
  ⟨by decide, thread_guard_confinement 42 0 1 (by decide)⟩

/-- C8: `ProxyMap::get` and `ProxyMap::get_new` on an id absent from the
registry return empty on the first and on every subsequent call, and leave
the facade (hence the registry) unchanged. -/
theorem proxy_map_get_absent (pm : ProxyMap) (id : Nat)
    (h : pm.map.find id = none) :
    (pm.get id).1 = none ∧ (pm.get id).2 = pm ∧
    ((pm.get id).2.get id).1 = none ∧
    (pm.get_new id).1 = none ∧ (pm.get_new id).2 = pm ∧
    ((pm.get_new id).2.get_new id).1 = none := by
  simp [ProxyMap.get, ProxyMap.get_new, ProxyInner.from_id, h]

/-- Witness for C8 at id 99, absent from the fixture registry. -/
theorem proxy_map_get_absent_witness :
    (ProxyMap.mk mapFix).map.find 99 = none ∧
    ((ProxyMap.mk mapFix).get 99).1 = none :=
  ⟨by decide, (proxy_map_get_absent (ProxyMap.mk mapFix) 99 (by decide)).1⟩

/-- C1: for a decoded event whose minimum version exceeds the proxy's
negotiated version, `ImplDispatcher::dispatch` returns `BadMsg` and invokes
the user callback zero times; for a decoded event whose minimum version is
at most the negotiated version, the callback is invoked exactly once (with
that event) and dispatch returns `Yes`. -/
theorem dispatch_version_gate {Event : Type} (sig : EventSig Event)
    (debug : Bool) (msg : Message) (proxy : ProxyInner) (map : ObjectMap)
    (e : Event) (hdec : sig.from_raw msg map = some e)
    (hop : msg.opcode < proxy.object.events.length) :
    (proxy.version < sig.sinceV e →
      (ImplDispatcher.dispatch sig debug msg proxy map).map
        (fun r => (r.outcome, r.calls)) = some (Dispatched.BadMsg, [])) ∧
    (sig.sinceV e ≤ proxy.version →
      (ImplDispatcher.dispatch sig debug msg proxy map).map
        (fun r => (r.outcome, r.calls.map Prod.fst))
        = some (Dispatched.Yes, [e])) := by
  have hev : proxy.object.events[msg.opcode]?
      = some (proxy.object.events[msg.opcode]) :=
    List.getElem?_eq_getElem hop
  constructor
  · intro hv
    cases debug <;>
      simp [ImplDispatcher.dispatch, hev, hdec, hv]
  · intro hv
    cases debug <;> cases hd : sig.is_destructor e <;>
      simp [ImplDispatcher.dispatch, hev, hdec, hd, not_lt.mpr hv]

/-- Witness for C1: event 3 (since 3) delivered to the version-4 fixture
proxy is dispatched with exactly one callback invocation. -/
theorem dispatch_version_gate_witness :
    sigOk.from_raw msgFix mapFix = some 3 ∧
    sigOk.sinceV 3 ≤ proxyFix.version ∧
    (ImplDispatcher.dispatch sigOk false msgFix proxyFix mapFix).map
      (fun r => (r.outcome, r.calls.map Prod.fst))
      = some (Dispatched.Yes, [3]) :=
  ⟨rfl, by decide,
    (dispatch_version_gate sigOk false msgFix proxyFix mapFix 3 rfl
      (by decide)).2 (by decide)⟩

/-- C4: a decoded destructor event that passes the version gate is still
delivered to the user callback exactly once, with the decoded event and a
handle to the target object, and dispatch returns `Yes` — identically to
the non-destructor case (the `is_destructor` branch is not constrained). -/
theorem dispatch_destructor_delivers {Event : Type} (sig : EventSig Event)
    (debug : Bool) (msg : Message) (proxy : ProxyInner) (map : ObjectMap)
    (e : Event) (hdec : sig.from_raw msg map = some e)
    (hv : sig.sinceV e ≤ proxy.version)
    (hop : msg.opcode < proxy.object.events.length) :
    (ImplDispatcher.dispatch sig debug msg proxy map).map
      (fun r => (r.outcome, r.calls.map Prod.fst,
        r.calls.map (fun c => c.2.id)))
      = some (Dispatched.Yes, [e], [proxy.id]) := by
  have hev : proxy.object.events[msg.opcode]?
      = some (proxy.object.events[msg.opcode]) :=
    List.getElem?_eq_getElem hop
  cases debug <;> cases hd : sig.is_destructor e <;>
    simp [ImplDispatcher.dispatch, hev, hdec, hd, not_lt.mpr hv,
      ProxyInner.withAliveFalse]

/-- Witness for C4: destructor event 1 (since 1) on the version-4 fixture
proxy is delivered exactly once with the fixture handle. -/
theorem dispatch_destructor_delivers_witness :
    sigDtor.from_raw msgFix mapFix = some 1 ∧
    sigDtor.is_destructor 1 = true ∧
    (ImplDispatcher.dispatch sigDtor false msgFix proxyFix mapFix).map
      (fun r => (r.outcome, r.calls.map Prod.fst,
        r.calls.map (fun c => c.2.id)))
      = some (Dispatched.Yes, [1], [proxyFix.id]) :=
  ⟨rfl, rfl,
    dispatch_destructor_delivers sigDtor false msgFix proxyFix mapFix 1 rfl
      (by decide) (by decide)⟩

/-- C5 counterexample: quantifying over all possible opcodes and events
tables, the version-violation path can panic: with an empty events table
and a decode contract accepting opcode 0 with minimum version 5 on a
version-1 proxy, the diagnostic `eprintln!` indexes `events[opcode]` out of
bounds and `dispatch` aborts (`none`) instead of returning `BadMsg`. -/
theorem dispatch_version_gate_panic_cex :
    ImplDispatcher.dispatch sigBadVer false msgFix proxyNoEvents mapFix
      = none := rfl

/-- C5 (amended): when the events table covers the message's opcode, the
version-violation path emits its diagnostic line and returns `BadMsg`
without panicking and without invoking the callback. -/
theorem dispatch_version_violation_no_panic {Event : Type}
    (sig : EventSig Event) (debug : Bool) (msg : Message)
    (proxy : ProxyInner) (map : ObjectMap) (e : Event)
    (hdec : sig.from_raw msg map = some e)
    (hv : proxy.version < sig.sinceV e)
    (hop : msg.opcode < proxy.object.events.length) :
    (ImplDispatcher.dispatch sig debug msg proxy map).map
      (fun r => (r.outcome, r.calls, r.debugLines.getLast?))
      = some (Dispatched.BadMsg, [],
          some (versionErrLine (proxy.object.events[msg.opcode]).name
            (sig.sinceV e) proxy)) := by
  have hev : proxy.object.events[msg.opcode]?
      = some (proxy.object.events[msg.opcode]) :=
    List.getElem?_eq_getElem hop
  cases debug <;> simp [ImplDispatcher.dispatch, hev, hdec, hv]

/-- Witness for C5 (amended): event 5 (since 5) on the version-4 fixture
proxy yields `BadMsg`, no callback, and the version diagnostic. -/
theorem dispatch_version_violation_no_panic_witness :
    sigBadVer.from_raw msgFix mapFix = some 5 ∧
    proxyFix.version < sigBadVer.sinceV 5 ∧
    (ImplDispatcher.dispatch sigBadVer false msgFix proxyFix mapFix).map
      (fun r => (r.outcome, r.calls, r.debugLines.getLast?))
      = some (Dispatched.BadMsg, [],
          some (versionErrLine (proxyFix.object.events[0]).name 5 proxyFix)) :=
  ⟨rfl, by decide,
    dispatch_version_violation_no_panic sigBadVer false msgFix proxyFix
      mapFix 5 rfl (by decide) (by decide)⟩

/-- C9: with `WAYLAND_DEBUG` enabled (and the events table covering the
opcode, without which the trace itself would abort), the trace line naming
interface, object id, event name and arguments is the first diagnostic
line emitted by `dispatch` whatever decode does; in particular when decode
fails the trace was still emitted and dispatch returns `BadMsg`. -/
theorem dispatch_trace_before_decode {Event : Type} (sig : EventSig Event)
    (msg : Message) (proxy : ProxyInner) (map : ObjectMap)
    (hop : msg.opcode < proxy.object.events.length) :
    (ImplDispatcher.dispatch sig true msg proxy map).map
      (fun r => r.debugLines.head?)
      = some (some (traceLine proxy msg
          (proxy.object.events[msg.opcode]).name)) ∧
    (sig.from_raw msg map = none →
      (ImplDispatcher.dispatch sig true msg proxy map).map
        (fun r => (r.outcome, r.debugLines.head?))
        = some (Dispatched.BadMsg,
            some (traceLine proxy msg
              (proxy.object.events[msg.opcode]).name))) := by
  have hev : proxy.object.events[msg.opcode]?
      = some (proxy.object.events[msg.opcode]) :=
    List.getElem?_eq_getElem hop
  constructor
  · cases hdec : sig.from_raw msg map with
    | none => simp [ImplDispatcher.dispatch, hev, hdec]
    | some e =>
      rcases lt_or_le proxy.version (sig.sinceV e) with hv | hv
      · simp [ImplDispatcher.dispatch, hev, hdec, hv]
      · cases hd : sig.is_destructor e <;>
          simp [ImplDispatcher.dispatch, hev, hdec, hd, not_lt.mpr hv]
  · intro hdec
    simp [ImplDispatcher.dispatch, hev, hdec]

/-- Witness for C9: a decode contract that always fails, on the fixture
proxy with tracing on: the trace line is emitted and the outcome is
`BadMsg`. -/
theorem dispatch_trace_before_decode_witness :
    msgFix.opcode < proxyFix.object.events.length ∧
    (ImplDispatcher.dispatch
        (⟨fun _ _ => none, fun n => n, fun _ => false⟩ : EventSig Nat)
        true msgFix proxyFix mapFix).map
      (fun r => (r.outcome, r.debugLines.head?))
      = some (Dispatched.BadMsg,
          some (traceLine proxyFix msgFix
            (proxyFix.object.events[0]).name)) :=
  ⟨by decide,
    (dispatch_trace_before_decode
      (⟨fun _ _ => none, fun n => n, fun _ => false⟩ : EventSig Nat)
      msgFix proxyFix mapFix (by decide)).2 rfl⟩

/-- C10: a destructor event whose target id is no longer in the registry
does not make `dispatch` fail: the bookkeeping closure yields `none`, the
opposite flag is taken as `false`, nothing is removed (the registry is
unchanged at every id), the callback still runs once with the decoded
event, and dispatch returns `Yes`. -/
theorem dispatch_destructor_absent_entry {Event : Type}
    (sig : EventSig Event) (msg : Message) (proxy : ProxyInner)
    (map : ObjectMap) (e : Event)
    (hdec : sig.from_raw msg map = some e)
    (hv : sig.sinceV e ≤ proxy.version)
    (hd : sig.is_destructor e = true)
    (habs : map.find proxy.id = none) :
    (ImplDispatcher.dispatch sig false msg proxy map).map
      (fun r => (r.outcome, r.calls.map Prod.fst))
      = some (Dispatched.Yes, [e]) ∧
    (∀ i, (ImplDispatcher.dispatch sig false msg proxy map).map
      (fun r => r.map.find i) = some (map.find i)) := by
  simp only [ObjectMap.find] at habs
  have habs2 : (map.storeAlive proxy.id false) proxy.id = none := by
    simp [ObjectMap.storeAlive, habs]
  have hclean : destructorCleanup (map.storeAlive proxy.id false) proxy.id
      = map.storeAlive proxy.id false := by
    simp [destructorCleanup, ObjectMap.withId, habs2]
  have hmap : ∀ i,
      (destructorCleanup (map.storeAlive proxy.id false) proxy.id).find i
        = map.find i := by
    intro i
    rw [hclean]
    simp only [ObjectMap.find, ObjectMap.storeAlive]
    by_cases hi : i = proxy.id
    · subst hi
      simp [habs]
    · simp [hi]
  constructor
  · simp [ImplDispatcher.dispatch, hdec, hd, not_lt.mpr hv]
  · intro i
    simp [ImplDispatcher.dispatch, hdec, hd, not_lt.mpr hv]
    exact hmap i

/-- Witness for C10: destructor event 1 aimed at id 9, absent from the
fixture registry: dispatched with one callback invocation. -/
theorem dispatch_destructor_absent_entry_witness :
    mapFix.find proxyNoEvents.id = none ∧
    (ImplDispatcher.dispatch sigDtor false msgFix proxyNoEvents mapFix).map
      (fun r => (r.outcome, r.calls.map Prod.fst))
      = some (Dispatched.Yes, [1]) :=
  ⟨by decide,
    (dispatch_destructor_absent_entry sigDtor msgFix proxyNoEvents mapFix 1
      rfl (by decide) rfl (by decide)).1⟩

/-- Helper: the client-side destroy signal (the bookkeeping `dispatch`
performs for a destructor event) leaves the entry with `alive = false` and
`client_destroyed = true` when `server_destroyed` was unset, and removes it
when `server_destroyed` was already set. -/
theorem clientDestroy_at_id (m : ObjectMap) (id : Nat) (obj : Object)
    (h : m id = some obj) :
    (clientDestroy m id) id =
      if obj.meta.server_destroyed then none
      else some { obj with meta :=
        { obj.meta with alive := false, client_destroyed := true } } := by
  have hm1 : (m.storeAlive id false) id
      = some { obj with meta := { obj.meta with alive := false } } := by
    simp [ObjectMap.storeAlive, h]
  cases hsd : obj.meta.server_destroyed <;>
    simp [clientDestroy, destructorCleanup, ObjectMap.withId, hm1, hsd,
      ObjectMap.remove]

/-- Helper: the server-side destroy signal leaves the entry with
`alive = false` and `server_destroyed = true` when `client_destroyed` was
unset, and removes it when `client_destroyed` was already set. -/
theorem serverDestroy_at_id (m : ObjectMap) (id : Nat) (obj : Object)
    (h : m id = some obj) :
    (serverDestroy m id) id =
      if obj.meta.client_destroyed then none
      else some { obj with meta :=
        { obj.meta with alive := false, server_destroyed := true } } := by
  have hm1 : (m.storeAlive id false) id
      = some { obj with meta := { obj.meta with alive := false } } := by
    simp [ObjectMap.storeAlive, h]
  cases hcd : obj.meta.client_destroyed <;>
    simp [serverDestroy, ObjectMap.withId, hm1, hcd, ObjectMap.remove]

/-- Helper: on a destructor event passing the version gate, the registry
after `dispatch` is exactly the one produced by the client-side destroy
signal on the target id. -/
theorem dispatch_destructor_map {Event : Type} (sig : EventSig Event)
    (msg : Message) (proxy : ProxyInner) (map : ObjectMap) (e : Event)
    (hdec : sig.from_raw msg map = some e)
    (hv : sig.sinceV e ≤ proxy.version)
    (hd : sig.is_destructor e = true) :
    (ImplDispatcher.dispatch sig false msg proxy map).map (fun r => r.map)
      = some (clientDestroy map proxy.id) := by
  simp [ImplDispatcher.dispatch, hdec, hd, not_lt.mpr hv, clientDestroy]

/-- C2: starting from an entry with both destroy flags unset, in either
order of the two destroy signals: after the first signal the entry still
resolves via lookup with `alive = false` and only that side's flag set (no
removal), and exactly after the second signal the entry is removed. -/
theorem destroy_reconciliation (m : ObjectMap) (id : Nat) (obj : Object)
    (h : m.find id = some obj) (hc : obj.meta.client_destroyed = false)
    (hs : obj.meta.server_destroyed = false) :
    ((clientDestroy m id).find id).map
        (fun o => (o.meta.alive, o.meta.client_destroyed,
          o.meta.server_destroyed))
      = some (false, true, false) ∧
    ((serverDestroy m id).find id).map
        (fun o => (o.meta.alive, o.meta.client_destroyed,
          o.meta.server_destroyed))
      = some (false, false, true) ∧
    (serverDestroy (clientDestroy m id) id).find id = none ∧
    (clientDestroy (serverDestroy m id) id).find id = none := by
  simp only [ObjectMap.find] at h ⊢
  have hC := clientDestroy_at_id m id obj h
  rw [hs] at hC
  simp only [Bool.false_eq_true, if_false] at hC
  have hS := serverDestroy_at_id m id obj h
  rw [hc] at hS
  simp only [Bool.false_eq_true, if_false] at hS
  refine ⟨?_, ?_, ?_, ?_⟩
  · rw [hC]; simp [hs]
  · rw [hS]; simp [hc]
  · have := serverDestroy_at_id (clientDestroy m id) id _ hC
    rw [this]; simp
  · have := clientDestroy_at_id (serverDestroy m id) id _ hS
    rw [this]; simp

/-- Witness for C2 on the fixture entry at id 5 (both flags unset). -/
theorem destroy_reconciliation_witness :
    mapFix.find 5 = some objFix ∧
    ((serverDestroy (clientDestroy mapFix 5) 5).find 5 = none ∧
      (clientDestroy (serverDestroy mapFix 5) 5).find 5 = none) :=
  ⟨by decide,
    ⟨(destroy_reconciliation mapFix 5 objFix (by decide) rfl rfl).2.2.1,
      (destroy_reconciliation mapFix 5 objFix (by decide) rfl rfl).2.2.2⟩⟩

/-- C3 counterexample: dispatching the destructor event 1 to the fixture
object (id 5, both destroy flags unset) leaves the registry entry with
`client_destroyed = true` and `server_destroyed = false`: the destructor
bookkeeping of `dispatch` sets the client flag and reads the server flag,
not the other way around as claimed. -/
theorem dispatch_destructor_flag_cex :
    (ImplDispatcher.dispatch sigDtor false msgFix proxyFix mapFix).map
      (fun r => (r.map.find 5).map
        (fun o => (o.meta.client_destroyed, o.meta.server_destroyed)))
      = some (some (true, false)) := rfl

/-- C3 (amended): the destructor bookkeeping step of
`ImplDispatcher::dispatch` sets `client_destroyed = true` on the target
entry and reads whether the opposite flag `server_destroyed` is already
set: the entry survives (with `client_destroyed = true`,
`server_destroyed` unchanged `false`) when the server flag was unset, and
is removed when it was set. -/
theorem dispatch_destructor_flag_update {Event : Type} (sig : EventSig Event)
    (msg : Message) (proxy : ProxyInner) (map : ObjectMap) (e : Event)
    (obj : Object)
    (hdec : sig.from_raw msg map = some e)
    (hv : sig.sinceV e ≤ proxy.version)
    (hd : sig.is_destructor e = true)
    (hfind : map.find proxy.id = some obj) :
    (obj.meta.server_destroyed = false →
      (ImplDispatcher.dispatch sig false msg proxy map).map
        (fun r => (r.map.find proxy.id).map
          (fun o => (o.meta.client_destroyed, o.meta.server_destroyed)))
        = some (some (true, false))) ∧
    (obj.meta.server_destroyed = true →
      (ImplDispatcher.dispatch sig false msg proxy map).map
        (fun r => r.map.find proxy.id) = some none) := by
  simp only [ObjectMap.find] at hfind
  have hmap := dispatch_destructor_map sig msg proxy map e hdec hv hd
  have hC := clientDestroy_at_id map proxy.id obj hfind
  constructor
  · intro hs
    rw [hs] at hC
    simp only [Bool.false_eq_true, if_false] at hC
    rcases Option.map_eq_some'.mp hmap with ⟨r, hr, hrm⟩
    simp only [hr, Option.map_some', ObjectMap.find, hrm, hC,
      Option.map_some', hs]
  · intro hs
    rw [hs] at hC
    simp only [if_true] at hC
    rcases Option.map_eq_some'.mp hmap with ⟨r, hr, hrm⟩
    simp only [hr, Option.map_some', ObjectMap.find, hrm, hC]

/-- Witness for C3 (amended): destructor event 1 on the fixture entry at
id 5 with `server_destroyed` unset: the entry survives with
`client_destroyed = true` and `server_destroyed = false`. -/
theorem dispatch_destructor_flag_update_witness :
    mapFix.find 5 = some objFix ∧ objFix.meta.server_destroyed = false ∧
    (ImplDispatcher.dispatch sigDtor false msgFix proxyFix mapFix).map
      (fun r => (r.map.find 5).map
        (fun o => (o.meta.client_destroyed, o.meta.server_destroyed)))
      = some (some (true, false)) :=
  ⟨by decide, rfl,
    (dispatch_destructor_flag_update sigDtor msgFix proxyFix mapFix 1 objFix
      rfl (by decide) rfl (by decide)).1 rfl⟩
